import Mathlib

/-!
# NB05 keyboard backlight driver (`tuxedo_nb05_kbd_backlight.c`)

A shallow embedding of the brightness control code of the driver and the
properties of its four entry points:

* `nb05_leds_set_brightness`  (the `brightness_set` callback, caller-driven),
* `nb05_leds_notify_brightness_change_extern`  (hardware-driven update),
* `init_leds`  (registration of the LED class device),
* `tuxedo_nb05_kbd_backlight_remove`  (teardown).

The driver keeps one file-scope pointer, `__nb05_kbd_led_cdev`, to the
registered `struct led_classdev`.  Driver memory is modelled as a finite map
from addresses to `led_classdev` records, the pointer as an `Option`, calls
into the kernel and into the EC as a list of emitted events, and a
dereference of a null or unmapped pointer as a fault.
-/

namespace TuxedoNb05

/-! ## Data model -/

/-- Address of a `struct led_classdev`.  In `struct driver_data_t` the member
`nb05_kbd_led_cdev` is the first and only member, so the address of the driver
data and the address of its LED class device coincide. -/
abbrev Ptr := Nat

/-- Values a `brightness_set` function pointer takes in this driver. -/
inductive Callback where
  | nb05_leds_set_brightness
  deriving DecidableEq, Repr

/-- The fields of `struct led_classdev` the driver reads or writes. -/
structure led_classdev where
  name : String
  brightness : Nat
  max_brightness : Nat
  flags : Nat
  brightness_set : Option Callback
  deriving DecidableEq, Repr

/-- The field of `struct dmi_system_id` the driver reads. -/
structure dmi_system_id where
  ident : String
  deriving DecidableEq, Repr

/-- A `struct platform_device`, reduced to what `dev_get_drvdata(&pdev->dev)`
returns (`none` is the null pointer). -/
structure platform_device where
  drvdata : Option Ptr
  deriving DecidableEq, Repr

/-- Calls that leave the driver: EC register writes and LED class calls. -/
inductive Event where
  /-- The call `nb05_write_ec_ram(addr, data)`. -/
  | ec_write (addr : Nat) (data : Nat)
  /-- The call `led_classdev_notify_brightness_hw_changed(cdev, brightness)`. -/
  | hw_changed (cdev : Ptr) (brightness : Nat)
  /-- The call `led_classdev_register(dev, cdev)`. -/
  | classdev_register (cdev : Ptr)
  /-- The call `led_classdev_unregister(cdev)`. -/
  | classdev_unregister (cdev : Option Ptr)
  deriving DecidableEq, Repr

/-- Ways in which an execution can go wrong in the C code. -/
inductive Fault where
  /-- Dereference of a null pointer. -/
  | null_deref
  /-- Dereference of an address that holds no object. -/
  | bad_deref
  /-- Array access past the end of `white_brightness_to_level_map`. -/
  | out_of_bounds
  deriving DecidableEq, Repr

/-- What the translation unit takes from its headers and from the kernel:
the macros `IFLX14I01` (from `tuxedo_nb05_ec.h`), `LED_FUNCTION_KBD_BACKLIGHT`
and `LED_BRIGHT_HW_CHANGED` (kernel headers), the board match
`nb05_match_device()` (`none` is a null result), the outcome of
`nb05_write_ec_ram(addr, data)` (`true` for a successful write) and the
return value of `led_classdev_register` for a given class device. -/
structure Env where
  IFLX14I01 : String
  LED_FUNCTION_KBD_BACKLIGHT : String
  LED_BRIGHT_HW_CHANGED : Nat
  nb05_match_device : Option dmi_system_id
  nb05_write_ec_ram : Nat → Nat → Bool
  led_classdev_register : Ptr → Int

/-- Mutable driver state: the file-scope pointer `__nb05_kbd_led_cdev` and the
`led_classdev` objects living in driver memory. -/
structure State where
  __nb05_kbd_led_cdev : Option Ptr
  mem : Ptr → Option led_classdev

/-- Result of running one entry point to completion: the C return value
(`Unit` for a `void` function), the state afterwards and the calls made. -/
structure Outcome (ρ : Type) where
  ret : ρ
  state : State
  events : List Event

/-! ## Constants of the translation unit -/

/-- The macro `NB05_KBD_BRIGHTNESS_MAX_WHITE`. -/
def NB05_KBD_BRIGHTNESS_MAX_WHITE : Nat := 0x02

/-- The macro `NB05_KBD_BRIGHTNESS_DEFAULT_WHITE`. -/
def NB05_KBD_BRIGHTNESS_DEFAULT_WHITE : Nat := 0x00

/-- The table `static u8 white_brightness_to_level_map[]`. -/
def white_brightness_to_level_map : List Nat := [0x00, 0x5c, 0xb8]

/-- State at module load: `__nb05_kbd_led_cdev = NULL`, no driver data yet. -/
def initial_state : State :=
  { __nb05_kbd_led_cdev := none, mem := fun _ => none }

/-! ## Library routine -/

/-- Comparison of two C strings given by their characters before the
terminating NUL, as the kernel's `strcmp` computes it: the first position
where the strings differ decides, and the terminator is smaller than every
character. -/
def strcmpChars : List Char → List Char → Int
  | [], [] => 0
  | [], _ :: _ => -1
  | _ :: _, [] => 1
  | a :: as, b :: bs =>
    if a ≠ b then (if a.toNat < b.toNat then -1 else 1) else strcmpChars as bs

/-- The routine `strcmp` on C strings. -/
def strcmp (a b : String) : Int := strcmpChars a.data b.data

/-! ## The driver -/

/-- The function `nb05_leds_set_brightness(led_cdev, brightness)`.  The class
device argument is unused, the result of `nb05_write_ec_ram` is discarded, and
the function returns `void`. -/
def nb05_leds_set_brightness (env : Env) (s : State) (_led_cdev : Ptr)
    (brightness : Int) : Except Fault (Outcome Unit) :=
  if brightness < 0 ∨ brightness > (NB05_KBD_BRIGHTNESS_MAX_WHITE : Int) then
    .ok ⟨(), s, []⟩
  else
    match env.nb05_match_device with
    | none => .error .null_deref
    | some sysid =>
      match white_brightness_to_level_map[brightness.toNat]? with
      | none => .error .out_of_bounds
      | some level =>
        if strcmp sysid.ident env.IFLX14I01 = 0 then
          let _written := env.nb05_write_ec_ram 0x03e2 level
          .ok ⟨(), s, [.ec_write 0x03e2 level]⟩
        else
          let _written := env.nb05_write_ec_ram 0x0409 level
          .ok ⟨(), s, [.ec_write 0x0409 level]⟩

/-- The function `nb05_leds_notify_brightness_change_extern(u8 step)`. -/
def nb05_leds_notify_brightness_change_extern (s : State) (step : Nat) :
    Except Fault (Outcome Unit) :=
  if step > NB05_KBD_BRIGHTNESS_MAX_WHITE then
    .ok ⟨(), s, []⟩
  else
    match s.__nb05_kbd_led_cdev with
    | none => .ok ⟨(), s, []⟩
    | some p =>
      match s.mem p with
      | none => .error .bad_deref
      | some c =>
        .ok ⟨(), { s with mem := Function.update s.mem p (some { c with brightness := step }) },
             [.hw_changed p step]⟩

/-- The function `init_leds(pdev)`. -/
def init_leds (env : Env) (s : State) (pdev : platform_device) :
    Except Fault (Outcome Int) :=
  match pdev.drvdata with
  | none => .error .null_deref
  | some p =>
    match s.mem p with
    | none => .error .bad_deref
    | some c =>
      let c1 : led_classdev :=
        { c with
          name := "white:" ++ env.LED_FUNCTION_KBD_BACKLIGHT
          max_brightness := NB05_KBD_BRIGHTNESS_MAX_WHITE
          brightness_set := some .nb05_leds_set_brightness
          brightness := NB05_KBD_BRIGHTNESS_DEFAULT_WHITE
          flags := env.LED_BRIGHT_HW_CHANGED }
      let s1 : State := { s with mem := Function.update s.mem p (some c1) }
      let retval := env.led_classdev_register p
      if retval ≠ 0 then
        .ok ⟨retval, s1, [.classdev_register p]⟩
      else
        .ok ⟨0, { s1 with __nb05_kbd_led_cdev := some p }, [.classdev_register p]⟩

/-- The function `tuxedo_nb05_kbd_backlight_remove(pdev)`, in its `void`
form (kernels from 6.11 on; the older form returns the constant 0 besides).
It only takes the address of the class device inside the driver data. -/
def tuxedo_nb05_kbd_backlight_remove (s : State) (pdev : platform_device) :
    Except Fault (Outcome Unit) :=
  .ok ⟨(), { s with __nb05_kbd_led_cdev := none }, [.classdev_unregister pdev.drvdata]⟩

/-! ## Observations -/

/-- The brightness stored in the registered class device, that is
`__nb05_kbd_led_cdev->brightness`; `none` when no device is registered. -/
def current_brightness (s : State) : Option Nat :=
  match s.__nb05_kbd_led_cdev with
  | none => none
  | some p => (s.mem p).map (fun c => c.brightness)

/-- The maximum stored in the registered class device. -/
def max_brightness (s : State) : Option Nat :=
  match s.__nb05_kbd_led_cdev with
  | none => none
  | some p => (s.mem p).map (fun c => c.max_brightness)

/-- The EC register writes among a list of events, as (address, value). -/
def ec_writes : List Event → List (Nat × Nat)
  | [] => []
  | .ec_write a d :: es => (a, d) :: ec_writes es
  | _ :: es => ec_writes es

/-- The change notifications among a list of events, as (receiver, step). -/
def notifications : List Event → List (Ptr × Nat)
  | [] => []
  | .hw_changed p b :: es => (p, b) :: notifications es
  | _ :: es => notifications es

/-- Error taxonomy of the specification, used to phrase what a caller could
read out of a return value. -/
inductive BacklightError where
  | OutOfRange
  | HardwareWriteFailed
  | AlreadyRegistered
  deriving DecidableEq, Repr

/-! ## Sample environments and states -/

/-- A class device as `devm_kzalloc` leaves it: all fields zero. -/
def zeroed_cdev : led_classdev :=
  { name := "", brightness := 0, max_brightness := 0, flags := 0, brightness_set := none }

/-- An environment of a board other than the IFLX14I01 on which EC writes and
the registration succeed. -/
def env_ok : Env :=
  { IFLX14I01 := "IFLX14I01"
    LED_FUNCTION_KBD_BACKLIGHT := "kbd_backlight"
    LED_BRIGHT_HW_CHANGED := 2 ^ 21
    nb05_match_device := some ⟨"IFLX15I01"⟩
    nb05_write_ec_ram := fun _ _ => true
    led_classdev_register := fun _ => 0 }

/-- The environment `env_ok` with every EC write failing. -/
def env_write_fails : Env := { env_ok with nb05_write_ec_ram := fun _ _ => false }

/-- The environment `env_ok` with the registration failing with -12. -/
def env_register_fails : Env := { env_ok with led_classdev_register := fun _ => -12 }

/-- Driver data allocated at addresses 1 and 2, nothing registered. -/
def st_allocated : State :=
  { __nb05_kbd_led_cdev := none
    mem := fun p => if p = 1 ∨ p = 2 then some zeroed_cdev else none }

/-- Driver data allocated at addresses 1 and 2, the device at 1 registered. -/
def st_registered : State :=
  { __nb05_kbd_led_cdev := some 1
    mem := fun p => if p = 1 ∨ p = 2 then some zeroed_cdev else none }

/-! ## Auxiliary facts -/

theorem strcmpChars_eq_zero_iff (a b : List Char) : strcmpChars a b = 0 ↔ a = b := by
  induction a generalizing b with
  | nil => cases b <;> simp [strcmpChars]
  | cons x xs ih =>
    cases b with
    | nil => simp [strcmpChars]
    | cons y ys =>
      by_cases hxy : x = y
      · simp [strcmpChars, hxy, ih]
      · simp only [strcmpChars, ne_eq, hxy, not_false_eq_true, if_true, List.cons.injEq,
          false_and, iff_false]
        split <;> decide

theorem strcmp_eq_zero_iff (a b : String) : strcmp a b = 0 ↔ a = b := by
  unfold strcmp
  rw [strcmpChars_eq_zero_iff]
  constructor
  · intro h
    exact String.ext h
  · intro h
    rw [h]

/-- In-range brightness values are exactly 0, 1 and 2, and the table has an
entry for each of them. -/
theorem level_map_lookup (brightness : Int) (hlo : 0 ≤ brightness) (hhi : brightness ≤ 2) :
    ∃ level, white_brightness_to_level_map[brightness.toNat]? = some level := by
  have h : brightness = 0 ∨ brightness = 1 ∨ brightness = 2 := by omega
  rcases h with h | h | h <;> subst h
  · exact ⟨0x00, rfl⟩
  · exact ⟨0x5c, rfl⟩
  · exact ⟨0xb8, rfl⟩

/-- An in-range call of `nb05_leds_set_brightness` on a matched board returns
normally, leaves the state as it was, and makes the one EC write given by the
board and the table, whatever the write reports. -/
theorem set_brightness_in_range (env : Env) (s : State) (led_cdev : Ptr) (brightness : Int)
    (sysid : dmi_system_id) (hlo : 0 ≤ brightness) (hhi : brightness ≤ 2)
    (hid : env.nb05_match_device = some sysid) :
    ∃ level, white_brightness_to_level_map[brightness.toNat]? = some level ∧
      nb05_leds_set_brightness env s led_cdev brightness =
        .ok ⟨(), s, [.ec_write (if sysid.ident = env.IFLX14I01 then 0x03e2 else 0x0409) level]⟩ := by
  obtain ⟨level, hlevel⟩ := level_map_lookup brightness hlo hhi
  refine ⟨level, hlevel, ?_⟩
  have hguard : ¬ (brightness < 0 ∨ brightness > (NB05_KBD_BRIGHTNESS_MAX_WHITE : Int)) := by
    simp only [NB05_KBD_BRIGHTNESS_MAX_WHITE]
    push_cast
    omega
  unfold nb05_leds_set_brightness
  rw [if_neg hguard]
  simp only [hid, hlevel, strcmp_eq_zero_iff]
  by_cases hb : sysid.ident = env.IFLX14I01
  · simp [hb]
  · simp [hb]

/-- The run of `init_leds` on valid driver data, by the return value of the
registration. -/
theorem init_leds_run (env : Env) (s : State) (pdev : platform_device) (p : Ptr)
    (c : led_classdev) (hdrv : pdev.drvdata = some p) (hmem : s.mem p = some c) :
    init_leds env s pdev =
      if env.led_classdev_register p ≠ 0 then
        .ok ⟨env.led_classdev_register p,
          { s with mem := Function.update s.mem p (some
            { c with
              name := "white:" ++ env.LED_FUNCTION_KBD_BACKLIGHT
              max_brightness := NB05_KBD_BRIGHTNESS_MAX_WHITE
              brightness_set := some .nb05_leds_set_brightness
              brightness := NB05_KBD_BRIGHTNESS_DEFAULT_WHITE
              flags := env.LED_BRIGHT_HW_CHANGED }) },
          [.classdev_register p]⟩
      else
        .ok ⟨0,
          { __nb05_kbd_led_cdev := some p
            mem := Function.update s.mem p (some
              { c with
                name := "white:" ++ env.LED_FUNCTION_KBD_BACKLIGHT
                max_brightness := NB05_KBD_BRIGHTNESS_MAX_WHITE
                brightness_set := some .nb05_leds_set_brightness
                brightness := NB05_KBD_BRIGHTNESS_DEFAULT_WHITE
                flags := env.LED_BRIGHT_HW_CHANGED }) },
          [.classdev_register p]⟩ := by
  unfold init_leds
  simp only [hdrv, hmem]

/-- A valid step delivered while the handle points at a mapped class device
produces exactly one notification, to that device. -/
theorem notify_registered (s : State) (step : Nat) (p : Ptr) (c : led_classdev)
    (hstep : step ≤ 2) (hreg : s.__nb05_kbd_led_cdev = some p) (hmem : s.mem p = some c) :
    ∃ out, nb05_leds_notify_brightness_change_extern s step = .ok out ∧
      notifications out.events = [(p, step)] := by
  have hguard : ¬ step > NB05_KBD_BRIGHTNESS_MAX_WHITE := by
    simp only [NB05_KBD_BRIGHTNESS_MAX_WHITE]
    omega
  refine ⟨⟨(), { s with mem := Function.update s.mem p (some { c with brightness := step }) },
    [.hw_changed p step]⟩, ?_, rfl⟩
  unfold nb05_leds_notify_brightness_change_extern
  rw [if_neg hguard]
  simp only [hreg, hmem]

/-- A step delivered while the handle is empty is dropped. -/
theorem notify_unregistered (s : State) (step : Nat) (hreg : s.__nb05_kbd_led_cdev = none) :
    nb05_leds_notify_brightness_change_extern s step = .ok ⟨(), s, []⟩ := by
  unfold nb05_leds_notify_brightness_change_extern
  split
  · rfl
  · simp only [hreg]

/-! ## Properties of the entry points -/

/-- C1.  For every brightness step in [0, 2] and every board identity,
`nb05_leds_set_brightness` returns normally having made exactly one call out
of the driver, an EC register write; its address is 0x03e2 when the identity
string equals `IFLX14I01` and 0x0409 otherwise, and its value is the entry at
index `step` of the table [0x00, 0x5c, 0xb8]. -/
theorem nb05_leds_set_brightness_one_write (env : Env) (s : State) (led_cdev : Ptr)
    (brightness : Int) (sysid : dmi_system_id)
    (hlo : 0 ≤ brightness) (hhi : brightness ≤ 2)
    (hid : env.nb05_match_device = some sysid) :
    ∃ out level,
      nb05_leds_set_brightness env s led_cdev brightness = .ok out ∧
      [0x00, 0x5c, 0xb8][brightness.toNat]? = some level ∧
      out.events =
        [.ec_write (if sysid.ident = env.IFLX14I01 then 0x03e2 else 0x0409) level] ∧
      ec_writes out.events =
        [(if sysid.ident = env.IFLX14I01 then 0x03e2 else 0x0409, level)] := by
  obtain ⟨level, hlevel, hrun⟩ := set_brightness_in_range env s led_cdev brightness sysid hlo hhi hid
  exact ⟨_, level, hrun, hlevel, rfl, rfl⟩

/-- Witness for C1: step 1 on a board other than the IFLX14I01. -/
theorem nb05_leds_set_brightness_one_write_witness :
    ((0 : Int) ≤ 1 ∧ (1 : Int) ≤ 2 ∧ env_ok.nb05_match_device = some ⟨"IFLX15I01"⟩) ∧
    ∃ out level,
      nb05_leds_set_brightness env_ok st_registered 1 1 = .ok out ∧
      [0x00, 0x5c, 0xb8][(1 : Int).toNat]? = some level ∧
      out.events =
        [.ec_write (if (⟨"IFLX15I01"⟩ : dmi_system_id).ident = env_ok.IFLX14I01
          then 0x03e2 else 0x0409) level] ∧
      ec_writes out.events =
        [(if (⟨"IFLX15I01"⟩ : dmi_system_id).ident = env_ok.IFLX14I01
          then 0x03e2 else 0x0409, level)] :=
  ⟨⟨by decide, by decide, rfl⟩,
   nb05_leds_set_brightness_one_write env_ok st_registered 1 1 ⟨"IFLX15I01"⟩
     (by decide) (by decide) rfl⟩

/-- C2 (as the code has it).  For every step outside [0, 2],
`nb05_leds_set_brightness` returns normally with the unit value of a `void`
function, makes no call out of the driver (so zero EC register writes), and
leaves the whole state, hence `current_brightness` and the endpoint handle,
unchanged. -/
theorem nb05_leds_set_brightness_out_of_range (env : Env) (s : State) (led_cdev : Ptr)
    (brightness : Int) (h : brightness < 0 ∨ 2 < brightness) :
    ∃ out,
      nb05_leds_set_brightness env s led_cdev brightness = .ok out ∧
      out.ret = () ∧
      ec_writes out.events = [] ∧ out.events = [] ∧
      out.state = s ∧
      current_brightness out.state = current_brightness s ∧
      out.state.__nb05_kbd_led_cdev = s.__nb05_kbd_led_cdev := by
  have hguard : brightness < 0 ∨ brightness > (NB05_KBD_BRIGHTNESS_MAX_WHITE : Int) := by
    simp only [NB05_KBD_BRIGHTNESS_MAX_WHITE]
    push_cast
    omega
  refine ⟨⟨(), s, []⟩, ?_, rfl, rfl, rfl, rfl, rfl, rfl⟩
  unfold nb05_leds_set_brightness
  rw [if_pos hguard]

/-- Witness for C2: step 3 with a device registered. -/
theorem nb05_leds_set_brightness_out_of_range_witness :
    ((3 : Int) < 0 ∨ (2 : Int) < 3) ∧
    ∃ out,
      nb05_leds_set_brightness env_ok st_registered 1 3 = .ok out ∧
      out.ret = () ∧
      ec_writes out.events = [] ∧ out.events = [] ∧
      out.state = st_registered ∧
      current_brightness out.state = current_brightness st_registered ∧
      out.state.__nb05_kbd_led_cdev = st_registered.__nb05_kbd_led_cdev :=
  ⟨by decide, nb05_leds_set_brightness_out_of_range env_ok st_registered 1 3 (by decide)⟩

/-- C2 as stated fails: the call with step 3 returns the unit value, as the
call with the valid step 0 does, so no reading of the return value reports
`OutOfRange` for step 3 and success for step 0. -/
theorem nb05_leds_set_brightness_out_of_range_no_error :
    (nb05_leds_set_brightness env_ok st_registered 1 3).map (fun o => o.ret) = .ok () ∧
    (nb05_leds_set_brightness env_ok st_registered 1 0).map (fun o => o.ret) = .ok () ∧
    ¬ ∃ report : Unit → Option BacklightError,
        (nb05_leds_set_brightness env_ok st_registered 1 3).map (fun o => report o.ret) =
          .ok (some .OutOfRange) ∧
        (nb05_leds_set_brightness env_ok st_registered 1 0).map (fun o => report o.ret) =
          .ok none := by
  refine ⟨rfl, rfl, ?_⟩
  rintro ⟨report, h3, h0⟩
  have e3 : (nb05_leds_set_brightness env_ok st_registered 1 3).map (fun o => report o.ret) =
      .ok (report ()) := rfl
  have e0 : (nb05_leds_set_brightness env_ok st_registered 1 0).map (fun o => report o.ret) =
      .ok (report ()) := rfl
  rw [e3] at h3
  rw [e0] at h0
  have a3 : report () = some .OutOfRange := by injection h3
  have a0 : report () = none := by injection h0
  rw [a3] at a0
  exact Option.noConfusion a0

/-- C3.  For every step in [0, 2] (a `u8`) and every state in which an
endpoint is registered, `nb05_leds_notify_brightness_change_extern(step)`
returns normally, sets `current_brightness` to `step`, emits exactly one change
notification, carrying `step` to the registered endpoint, keeps the handle, and
performs zero EC register writes. -/
theorem nb05_leds_notify_brightness_change_extern_valid (s : State) (step : Nat) (p : Ptr)
    (c : led_classdev) (_hu8 : step < 256) (hstep : step ≤ 2)
    (hreg : s.__nb05_kbd_led_cdev = some p) (hmem : s.mem p = some c) :
    ∃ out,
      nb05_leds_notify_brightness_change_extern s step = .ok out ∧
      current_brightness out.state = some step ∧
      notifications out.events = [(p, step)] ∧
      out.events = [.hw_changed p step] ∧
      ec_writes out.events = [] ∧
      out.state.__nb05_kbd_led_cdev = some p := by
  have hguard : ¬ step > NB05_KBD_BRIGHTNESS_MAX_WHITE := by
    simp only [NB05_KBD_BRIGHTNESS_MAX_WHITE]
    omega
  refine ⟨⟨(), { s with mem := Function.update s.mem p (some { c with brightness := step }) },
    [.hw_changed p step]⟩, ?_, ?_, rfl, rfl, rfl, hreg⟩
  · unfold nb05_leds_notify_brightness_change_extern
    rw [if_neg hguard]
    simp only [hreg, hmem]
  · simp [current_brightness, hreg]

/-- Witness for C3: step 2 with the device at address 1 registered. -/
theorem nb05_leds_notify_brightness_change_extern_valid_witness :
    (2 < 256 ∧ 2 ≤ 2 ∧ st_registered.__nb05_kbd_led_cdev = some 1 ∧
      st_registered.mem 1 = some zeroed_cdev) ∧
    ∃ out,
      nb05_leds_notify_brightness_change_extern st_registered 2 = .ok out ∧
      current_brightness out.state = some 2 ∧
      notifications out.events = [(1, 2)] ∧
      out.events = [.hw_changed 1 2] ∧
      ec_writes out.events = [] ∧
      out.state.__nb05_kbd_led_cdev = some 1 :=
  ⟨⟨by decide, by decide, rfl, rfl⟩,
   nb05_leds_notify_brightness_change_extern_valid st_registered 2 1 zeroed_cdev
     (by decide) (by decide) rfl rfl⟩

/-- C4.  For every step greater than 2 and every state,
`nb05_leds_notify_brightness_change_extern(step)` does nothing: it returns
normally with the state (so `current_brightness` and the endpoint handle)
unchanged and without any call out of the driver, so no notification and no EC
register write. -/
theorem nb05_leds_notify_brightness_change_extern_invalid (s : State) (step : Nat)
    (hstep : 2 < step) :
    ∃ out,
      nb05_leds_notify_brightness_change_extern s step = .ok out ∧
      out.state = s ∧
      current_brightness out.state = current_brightness s ∧
      out.state.__nb05_kbd_led_cdev = s.__nb05_kbd_led_cdev ∧
      out.events = [] ∧
      notifications out.events = [] ∧
      ec_writes out.events = [] := by
  have hguard : step > NB05_KBD_BRIGHTNESS_MAX_WHITE := by
    simp only [NB05_KBD_BRIGHTNESS_MAX_WHITE]
    omega
  refine ⟨⟨(), s, []⟩, ?_, rfl, rfl, rfl, rfl, rfl, rfl⟩
  unfold nb05_leds_notify_brightness_change_extern
  rw [if_pos hguard]

/-- Witness for C4: step 3 with a device registered. -/
theorem nb05_leds_notify_brightness_change_extern_invalid_witness :
    2 < 3 ∧
    ∃ out,
      nb05_leds_notify_brightness_change_extern st_registered 3 = .ok out ∧
      out.state = st_registered ∧
      current_brightness out.state = current_brightness st_registered ∧
      out.state.__nb05_kbd_led_cdev = st_registered.__nb05_kbd_led_cdev ∧
      out.events = [] ∧
      notifications out.events = [] ∧
      ec_writes out.events = [] :=
  ⟨by decide, nb05_leds_notify_brightness_change_extern_invalid st_registered 3 (by decide)⟩

/-- C5 (as the code has it).  For every step in [0, 2], when the EC register
write succeeds, `nb05_leds_set_brightness` returns normally having made that
one write and nothing else: the state, hence `current_brightness` and the
endpoint handle, is as before the call (the step is not stored), and zero change
notifications are emitted. -/
theorem nb05_leds_set_brightness_write_ok (env : Env) (s : State) (led_cdev : Ptr)
    (brightness : Int) (sysid : dmi_system_id)
    (hlo : 0 ≤ brightness) (hhi : brightness ≤ 2)
    (hid : env.nb05_match_device = some sysid)
    (_hwrite : ∀ addr data, env.nb05_write_ec_ram addr data = true) :
    ∃ out,
      nb05_leds_set_brightness env s led_cdev brightness = .ok out ∧
      out.state = s ∧
      current_brightness out.state = current_brightness s ∧
      out.state.__nb05_kbd_led_cdev = s.__nb05_kbd_led_cdev ∧
      notifications out.events = [] ∧
      (ec_writes out.events).length = 1 := by
  obtain ⟨level, _, hrun⟩ := set_brightness_in_range env s led_cdev brightness sysid hlo hhi hid
  exact ⟨_, hrun, rfl, rfl, rfl, rfl, rfl⟩

/-- Witness for C5: step 1, stored brightness 0, the write succeeding. -/
theorem nb05_leds_set_brightness_write_ok_witness :
    ((0 : Int) ≤ 1 ∧ (1 : Int) ≤ 2 ∧ env_ok.nb05_match_device = some ⟨"IFLX15I01"⟩ ∧
      ∀ addr data, env_ok.nb05_write_ec_ram addr data = true) ∧
    ∃ out,
      nb05_leds_set_brightness env_ok st_registered 1 1 = .ok out ∧
      out.state = st_registered ∧
      current_brightness out.state = current_brightness st_registered ∧
      out.state.__nb05_kbd_led_cdev = st_registered.__nb05_kbd_led_cdev ∧
      notifications out.events = [] ∧
      (ec_writes out.events).length = 1 :=
  ⟨⟨by decide, by decide, rfl, fun _ _ => rfl⟩,
   nb05_leds_set_brightness_write_ok env_ok st_registered 1 1 ⟨"IFLX15I01"⟩
     (by decide) (by decide) rfl (fun _ _ => rfl)⟩

/-- C5 as stated fails: with the device at address 1 registered and holding
brightness 0, the call with step 1 and a successful EC write leaves
`current_brightness` at 0, not 1, and emits no change notification. -/
theorem nb05_leds_set_brightness_does_not_store :
    current_brightness st_registered = some 0 ∧
    env_ok.nb05_write_ec_ram 0x0409 0x5c = true ∧
    ∃ out,
      nb05_leds_set_brightness env_ok st_registered 1 1 = .ok out ∧
      out.events = [.ec_write 0x0409 0x5c] ∧
      current_brightness out.state = some 0 ∧
      current_brightness out.state ≠ some 1 ∧
      notifications out.events = [] ∧
      notifications out.events ≠ [(1, 1)] := by
  refine ⟨rfl, rfl, ⟨(), st_registered, [.ec_write 0x0409 0x5c]⟩, rfl, rfl, rfl, ?_, rfl, ?_⟩
  · decide
  · decide

/-- C6 (as the code has it).  For every step in [0, 2], if the EC register
write reports failure, `nb05_leds_set_brightness` still returns normally with
the unit value of a `void` function (the report is discarded), leaves the
state, hence `current_brightness`, unchanged, and emits zero notifications. -/
theorem nb05_leds_set_brightness_write_failed (env : Env) (s : State) (led_cdev : Ptr)
    (brightness : Int) (sysid : dmi_system_id)
    (hlo : 0 ≤ brightness) (hhi : brightness ≤ 2)
    (hid : env.nb05_match_device = some sysid)
    (_hwrite : ∀ addr data, env.nb05_write_ec_ram addr data = false) :
    ∃ out,
      nb05_leds_set_brightness env s led_cdev brightness = .ok out ∧
      out.ret = () ∧
      out.state = s ∧
      current_brightness out.state = current_brightness s ∧
      notifications out.events = [] := by
  obtain ⟨level, _, hrun⟩ := set_brightness_in_range env s led_cdev brightness sysid hlo hhi hid
  exact ⟨_, hrun, rfl, rfl, rfl, rfl⟩

/-- Witness for C6: step 1 with every EC write failing. -/
theorem nb05_leds_set_brightness_write_failed_witness :
    ((0 : Int) ≤ 1 ∧ (1 : Int) ≤ 2 ∧
      env_write_fails.nb05_match_device = some ⟨"IFLX15I01"⟩ ∧
      ∀ addr data, env_write_fails.nb05_write_ec_ram addr data = false) ∧
    ∃ out,
      nb05_leds_set_brightness env_write_fails st_registered 1 1 = .ok out ∧
      out.ret = () ∧
      out.state = st_registered ∧
      current_brightness out.state = current_brightness st_registered ∧
      notifications out.events = [] :=
  ⟨⟨by decide, by decide, rfl, fun _ _ => rfl⟩,
   nb05_leds_set_brightness_write_failed env_write_fails st_registered 1 1 ⟨"IFLX15I01"⟩
     (by decide) (by decide) rfl (fun _ _ => rfl)⟩

/-- C6 as stated fails: at step 1 the call whose EC write fails returns the
unit value, as the call whose EC write succeeds does, so no reading of the
return value reports `HardwareWriteFailed` for the first and success for the
second. -/
theorem nb05_leds_set_brightness_write_failed_no_error :
    env_write_fails.nb05_write_ec_ram 0x0409 0x5c = false ∧
    env_ok.nb05_write_ec_ram 0x0409 0x5c = true ∧
    (nb05_leds_set_brightness env_write_fails st_registered 1 1).map (fun o => o.ret) = .ok () ∧
    (nb05_leds_set_brightness env_ok st_registered 1 1).map (fun o => o.ret) = .ok () ∧
    ¬ ∃ report : Unit → Option BacklightError,
        (nb05_leds_set_brightness env_write_fails st_registered 1 1).map
          (fun o => report o.ret) = .ok (some .HardwareWriteFailed) ∧
        (nb05_leds_set_brightness env_ok st_registered 1 1).map
          (fun o => report o.ret) = .ok none := by
  refine ⟨rfl, rfl, rfl, rfl, ?_⟩
  rintro ⟨report, hfail, hok⟩
  have efail : (nb05_leds_set_brightness env_write_fails st_registered 1 1).map
      (fun o => report o.ret) = .ok (report ()) := rfl
  have eok : (nb05_leds_set_brightness env_ok st_registered 1 1).map
      (fun o => report o.ret) = .ok (report ()) := rfl
  rw [efail] at hfail
  rw [eok] at hok
  have afail : report () = some .HardwareWriteFailed := by injection hfail
  have aok : report () = none := by injection hok
  rw [afail] at aok
  exact Option.noConfusion aok

/-- C7.  Teardown (`tuxedo_nb05_kbd_backlight_remove`) returns normally with
the endpoint handle cleared, and in every state with no endpoint registered
(the state at module load, a state after teardown, any other),
`nb05_leds_notify_brightness_change_extern(step)` for every step returns
normally (no fault) without any call out of the driver, so no notification and
no EC register write, and leaves the state, so the empty handle, as it was. -/
theorem tuxedo_nb05_kbd_backlight_remove_then_notify (s : State) (pdev : platform_device)
    (step : Nat) :
    (∃ out,
      tuxedo_nb05_kbd_backlight_remove s pdev = .ok out ∧
      out.state.__nb05_kbd_led_cdev = none ∧
      nb05_leds_notify_brightness_change_extern out.state step = .ok ⟨(), out.state, []⟩) ∧
    initial_state.__nb05_kbd_led_cdev = none ∧
    (∀ s0 : State, s0.__nb05_kbd_led_cdev = none →
      ∃ out0,
        nb05_leds_notify_brightness_change_extern s0 step = .ok out0 ∧
        notifications out0.events = [] ∧
        ec_writes out0.events = [] ∧
        out0.events = [] ∧
        out0.state = s0 ∧
        out0.state.__nb05_kbd_led_cdev = none) := by
  have hnoop : ∀ s0 : State, s0.__nb05_kbd_led_cdev = none →
      nb05_leds_notify_brightness_change_extern s0 step = .ok ⟨(), s0, []⟩ :=
    fun s0 h0 => notify_unregistered s0 step h0
  refine ⟨⟨⟨(), { s with __nb05_kbd_led_cdev := none }, [.classdev_unregister pdev.drvdata]⟩,
    rfl, rfl, hnoop _ rfl⟩, rfl, ?_⟩
  intro s0 h0
  exact ⟨⟨(), s0, []⟩, hnoop s0 h0, rfl, rfl, rfl, rfl, h0⟩

/-- Witness for C7: a valid step arriving at module load, before any
registration. -/
theorem tuxedo_nb05_kbd_backlight_remove_then_notify_witness :
    initial_state.__nb05_kbd_led_cdev = none ∧
    ∃ out0,
      nb05_leds_notify_brightness_change_extern initial_state 1 = .ok out0 ∧
      notifications out0.events = [] ∧
      ec_writes out0.events = [] ∧
      out0.events = [] ∧
      out0.state = initial_state ∧
      out0.state.__nb05_kbd_led_cdev = none :=
  ⟨rfl,
   (tuxedo_nb05_kbd_backlight_remove_then_notify st_registered ⟨some 1⟩ 1).2.2 initial_state rfl⟩

/-- C8 (as the code has it).  `init_leds` makes no already-registered check.
In every state in which an endpoint is registered, registering a second
endpoint returns 0 when the registration succeeds, and the handle then points
at the second endpoint, which a subsequent valid
`nb05_leds_notify_brightness_change_extern` notifies; when the registration
fails with a non-zero code, that code is returned and the handle keeps pointing
at the first endpoint, which a subsequent valid notification reaches. -/
theorem init_leds_second_endpoint (env : Env) (s : State) (pdev : platform_device)
    (p1 p2 : Ptr) (c1 c2 : led_classdev) (step : Nat)
    (hreg : s.__nb05_kbd_led_cdev = some p1) (hmem1 : s.mem p1 = some c1)
    (hdrv : pdev.drvdata = some p2) (hmem2 : s.mem p2 = some c2) (hstep : step ≤ 2) :
    ∃ out,
      init_leds env s pdev = .ok out ∧
      (env.led_classdev_register p2 = 0 →
        out.ret = 0 ∧ out.state.__nb05_kbd_led_cdev = some p2 ∧
        ∃ out2, nb05_leds_notify_brightness_change_extern out.state step = .ok out2 ∧
          notifications out2.events = [(p2, step)]) ∧
      (env.led_classdev_register p2 ≠ 0 →
        out.ret = env.led_classdev_register p2 ∧ out.state.__nb05_kbd_led_cdev = some p1 ∧
        ∃ out2, nb05_leds_notify_brightness_change_extern out.state step = .ok out2 ∧
          notifications out2.events = [(p1, step)]) := by
  have hrun := init_leds_run env s pdev p2 c2 hdrv hmem2
  by_cases hret : env.led_classdev_register p2 = 0
  · rw [if_neg (not_not.mpr hret)] at hrun
    refine ⟨_, hrun, fun _ => ⟨rfl, rfl, ?_⟩, fun h => absurd hret h⟩
    exact notify_registered _ step p2 _ hstep rfl (Function.update_same p2 _ s.mem)
  · rw [if_pos hret] at hrun
    refine ⟨_, hrun, fun h => absurd h hret, fun _ => ⟨rfl, hreg, ?_⟩⟩
    by_cases hp : p1 = p2
    · subst hp
      exact notify_registered _ step p1 _ hstep hreg (Function.update_same p1 _ s.mem)
    · refine notify_registered _ step p1 c1 hstep hreg ?_
      show Function.update s.mem p2 _ p1 = some c1
      rw [Function.update_noteq hp]
      exact hmem1

/-- Witness for C8: the device at address 1 is registered and the one at
address 2 is registered successfully on top of it. -/
theorem init_leds_second_endpoint_witness :
    (st_registered.__nb05_kbd_led_cdev = some 1 ∧ st_registered.mem 1 = some zeroed_cdev ∧
      (⟨some 2⟩ : platform_device).drvdata = some 2 ∧
      st_registered.mem 2 = some zeroed_cdev ∧ 1 ≤ 2) ∧
    ∃ out,
      init_leds env_ok st_registered ⟨some 2⟩ = .ok out ∧
      (env_ok.led_classdev_register 2 = 0 →
        out.ret = 0 ∧ out.state.__nb05_kbd_led_cdev = some 2 ∧
        ∃ out2, nb05_leds_notify_brightness_change_extern out.state 1 = .ok out2 ∧
          notifications out2.events = [(2, 1)]) ∧
      (env_ok.led_classdev_register 2 ≠ 0 →
        out.ret = env_ok.led_classdev_register 2 ∧ out.state.__nb05_kbd_led_cdev = some 1 ∧
        ∃ out2, nb05_leds_notify_brightness_change_extern out.state 1 = .ok out2 ∧
          notifications out2.events = [(1, 1)]) :=
  ⟨⟨rfl, rfl, rfl, rfl, by decide⟩,
   init_leds_second_endpoint env_ok st_registered ⟨some 2⟩ 1 2 zeroed_cdev zeroed_cdev 1
     rfl rfl rfl rfl (by decide)⟩

/-- C8 as stated fails: with the device at address 1 registered, `init_leds`
for the device at address 2 returns 0 when the registration succeeds, the
handle then points at address 2, and a following notification of step 1 goes to
the device at address 2, not to the first one. -/
theorem init_leds_replaces_endpoint :
    st_registered.__nb05_kbd_led_cdev = some 1 ∧
    ∃ out,
      init_leds env_ok st_registered ⟨some 2⟩ = .ok out ∧
      out.ret = 0 ∧
      out.state.__nb05_kbd_led_cdev = some 2 ∧
      out.state.__nb05_kbd_led_cdev ≠ some 1 ∧
      ∃ out2,
        nb05_leds_notify_brightness_change_extern out.state 1 = .ok out2 ∧
        out2.events = [.hw_changed 2 1] ∧
        notifications out2.events ≠ [(1, 1)] := by
  refine ⟨rfl, _, init_leds_run env_ok st_registered ⟨some 2⟩ 2 zeroed_cdev rfl rfl, ?_⟩
  refine ⟨rfl, rfl, by decide, ?_⟩
  refine ⟨_, rfl, rfl, by decide⟩

/-- C9.  Whenever the endpoint registration succeeds (on valid driver data),
`init_leds` returns 0 with `current_brightness` equal to the default 0, the
maximum brightness equal to 2, the handle holding the newly registered
endpoint, and zero EC register writes performed. -/
theorem init_leds_success (env : Env) (s : State) (pdev : platform_device) (p : Ptr)
    (c : led_classdev) (hdrv : pdev.drvdata = some p) (hmem : s.mem p = some c)
    (hret : env.led_classdev_register p = 0) :
    ∃ out,
      init_leds env s pdev = .ok out ∧
      out.ret = 0 ∧
      current_brightness out.state = some 0 ∧
      max_brightness out.state = some 2 ∧
      out.state.__nb05_kbd_led_cdev = some p ∧
      ec_writes out.events = [] := by
  have hrun := init_leds_run env s pdev p c hdrv hmem
  rw [if_neg (not_not.mpr hret)] at hrun
  refine ⟨_, hrun, rfl, ?_, ?_, rfl, rfl⟩
  · simp [current_brightness, NB05_KBD_BRIGHTNESS_DEFAULT_WHITE]
  · simp [max_brightness, NB05_KBD_BRIGHTNESS_MAX_WHITE]

/-- Witness for C9: first registration of the device at address 1. -/
theorem init_leds_success_witness :
    ((⟨some 1⟩ : platform_device).drvdata = some 1 ∧ st_allocated.mem 1 = some zeroed_cdev ∧
      env_ok.led_classdev_register 1 = 0) ∧
    ∃ out,
      init_leds env_ok st_allocated ⟨some 1⟩ = .ok out ∧
      out.ret = 0 ∧
      current_brightness out.state = some 0 ∧
      max_brightness out.state = some 2 ∧
      out.state.__nb05_kbd_led_cdev = some 1 ∧
      ec_writes out.events = [] :=
  ⟨⟨rfl, rfl, rfl⟩, init_leds_success env_ok st_allocated ⟨some 1⟩ 1 zeroed_cdev rfl rfl rfl⟩

/-- C10.  Whenever the endpoint registration fails with a non-zero code (on
valid driver data), `init_leds` returns exactly that code and leaves the
endpoint handle unchanged; so, starting from an empty handle, no handle is held
afterwards and every later hardware-driven update returns normally without
notifying anybody. -/
theorem init_leds_failure (env : Env) (s : State) (pdev : platform_device) (p : Ptr)
    (c : led_classdev) (hdrv : pdev.drvdata = some p) (hmem : s.mem p = some c)
    (hret : env.led_classdev_register p ≠ 0) :
    ∃ out,
      init_leds env s pdev = .ok out ∧
      out.ret = env.led_classdev_register p ∧
      out.state.__nb05_kbd_led_cdev = s.__nb05_kbd_led_cdev ∧
      (s.__nb05_kbd_led_cdev = none →
        out.state.__nb05_kbd_led_cdev = none ∧
        ∀ step, ∃ out2,
          nb05_leds_notify_brightness_change_extern out.state step = .ok out2 ∧
          notifications out2.events = [] ∧
          out2.state.__nb05_kbd_led_cdev = none) := by
  have hrun := init_leds_run env s pdev p c hdrv hmem
  rw [if_pos hret] at hrun
  refine ⟨_, hrun, rfl, rfl, fun hnone => ⟨hnone, fun step => ?_⟩⟩
  exact ⟨_, notify_unregistered _ step hnone, rfl, hnone⟩

/-- Witness for C10: the first registration failing with -12. -/
theorem init_leds_failure_witness :
    ((⟨some 1⟩ : platform_device).drvdata = some 1 ∧ st_allocated.mem 1 = some zeroed_cdev ∧
      env_register_fails.led_classdev_register 1 ≠ 0) ∧
    ∃ out,
      init_leds env_register_fails st_allocated ⟨some 1⟩ = .ok out ∧
      out.ret = env_register_fails.led_classdev_register 1 ∧
      out.state.__nb05_kbd_led_cdev = st_allocated.__nb05_kbd_led_cdev ∧
      (st_allocated.__nb05_kbd_led_cdev = none →
        out.state.__nb05_kbd_led_cdev = none ∧
        ∀ step, ∃ out2,
          nb05_leds_notify_brightness_change_extern out.state step = .ok out2 ∧
          notifications out2.events = [] ∧
          out2.state.__nb05_kbd_led_cdev = none) :=
  ⟨⟨rfl, rfl, by decide⟩,
   init_leds_failure env_register_fails st_allocated ⟨some 1⟩ 1 zeroed_cdev rfl rfl (by decide)⟩

end TuxedoNb05
